import Mathlib

/-!
Shallow embedding of the x402 payment-protocol client from
hypernode-app/examples/x402-python-example.py: payment-intent construction
(create_payment_intent), job submission (submit_job) and the status-polling
loop (wait_for_completion), together with theorems settling the
specification claims about them.

Byte strings are modelled as List Nat with every element below 256, machine
words as Nat with explicit reduction modulo 2^32 where the hash algorithm
overflows.  Current time is passed in explicitly: PyDatetime stands for the
value of datetime.datetime.utcnow() and PyTime for the value of time.time()
at the single point each is read.  Network responses and the signing
operation are likewise explicit parameters, so each Python method becomes a
pure function of its inputs.
-/

namespace X402

/-- Reduction modulo 2^32: the word size of the SHA-256 state. -/
def u32 (n : Nat) : Nat := n % 4294967296

/-- Right rotation of a 32-bit word by b bits. -/
def rotr (b n : Nat) : Nat := u32 ((n >>> b) ||| (n <<< (32 - b)))

/-- SHA-256 big sigma-0. -/
def bsig0 (x : Nat) : Nat := (rotr 2 x) ^^^ (rotr 13 x) ^^^ (rotr 22 x)

/-- SHA-256 big sigma-1. -/
def bsig1 (x : Nat) : Nat := (rotr 6 x) ^^^ (rotr 11 x) ^^^ (rotr 25 x)

/-- SHA-256 small sigma-0. -/
def ssig0 (x : Nat) : Nat := (rotr 7 x) ^^^ (rotr 18 x) ^^^ (x >>> 3)

/-- SHA-256 small sigma-1. -/
def ssig1 (x : Nat) : Nat := (rotr 17 x) ^^^ (rotr 19 x) ^^^ (x >>> 10)

/-- SHA-256 choice function; 4294967295 - u32 x is the 32-bit complement. -/
def chF (x y z : Nat) : Nat := (x &&& y) ^^^ ((4294967295 - u32 x) &&& z)

/-- SHA-256 majority function. -/
def majF (x y z : Nat) : Nat := (x &&& y) ^^^ (x &&& z) ^^^ (y &&& z)

/-- The 64 SHA-256 round constants of FIPS 180-4, in decimal. -/
def shaK : List Nat :=
  [1116352408, 1899447441, 3049323471, 3921009573, 961987163,
   1508970993, 2453635748, 2870763221, 3624381080, 310598401,
   607225278, 1426881987, 1925078388, 2162078206, 2614888103,
   3248222580, 3835390401, 4022224774, 264347078, 604807628,
   770255983, 1249150122, 1555081692, 1996064986, 2554220882,
   2821834349, 2952996808, 3210313671, 3336571891, 3584528711,
   113926993, 338241895, 666307205, 773529912, 1294757372,
   1396182291, 1695183700, 1986661051, 2177026350, 2456956037,
   2730485921, 2820302411, 3259730800, 3345764771, 3516065817,
   3600352804, 4094571909, 275423344, 430227734, 506948616,
   659060556, 883997877, 958139571, 1322822218, 1537002063,
   1747873779, 1955562222, 2024104815, 2227730452, 2361852424,
   2428436474, 2756734187, 3204031479, 3329325298]

/-- The eight SHA-256 initial hash words, in decimal. -/
def shaH0 : List Nat :=
  [1779033703, 3144134277, 1013904242, 2773480762,
   1359893119, 2600822924, 528734635, 1541459225]

/-- Big-endian 32-bit words from a byte list (length a multiple of 4). -/
def bytesToWords : List Nat → List Nat
  | b0 :: b1 :: b2 :: b3 :: rest =>
      (b0 * 16777216 + b1 * 65536 + b2 * 256 + b3) :: bytesToWords rest
  | _ => []

/-- The k-byte big-endian representation of n. -/
def natBytesBE : Nat → Nat → List Nat
  | 0, _ => []
  | k + 1, n => natBytesBE k (n / 256) ++ [n % 256]

/-- Extend a 16-word block by k further message-schedule words. -/
def shaExtend : Nat → List Nat → List Nat
  | 0, w => w
  | k + 1, w =>
      let i := w.length
      let x := u32 ((w.getD (i - 16) 0) + ssig0 (w.getD (i - 15) 0) +
                    (w.getD (i - 7) 0) + ssig1 (w.getD (i - 2) 0))
      shaExtend k (w ++ [x])

/-- One SHA-256 round: state [a,b,c,d,e,f,g,h], input (round key, word). -/
def shaRound (st : List Nat) (kw : Nat × Nat) : List Nat :=
  let a := st.getD 0 0
  let b := st.getD 1 0
  let c := st.getD 2 0
  let d := st.getD 3 0
  let e := st.getD 4 0
  let f := st.getD 5 0
  let g := st.getD 6 0
  let h := st.getD 7 0
  let t1 := u32 (h + bsig1 e + chF e f g + kw.1 + kw.2)
  let t2 := u32 (bsig0 a + majF a b c)
  [u32 (t1 + t2), a, b, c, u32 (d + t1), e, f, g]

/-- Compress one 64-byte block into the running hash state. -/
def shaCompressBlock (h0 : List Nat) (block : List Nat) : List Nat :=
  let w := shaExtend 48 (bytesToWords block)
  let st := (shaK.zip w).foldl shaRound h0
  (h0.zip st).map (fun p => u32 (p.1 + p.2))

/-- Fold the padded message through the compression function, 64 bytes at a
time; the fuel argument only bounds the recursion and is instantiated with
the byte count, which always suffices. -/
def shaBlocks : Nat → List Nat → List Nat → List Nat
  | 0, h, _ => h
  | _ + 1, h, [] => h
  | fuel + 1, h, bytes => shaBlocks fuel (shaCompressBlock h (bytes.take 64)) (bytes.drop 64)

/-- SHA-256 padding: 0x80, zeros to 56 mod 64, 8-byte big-endian bit length. -/
def sha256pad (msg : List Nat) : List Nat :=
  let L := msg.length
  let zeros := (119 - (L % 64)) % 64
  msg ++ [128] ++ List.replicate zeros 0 ++ natBytesBE 8 (L * 8)

/-- SHA-256 of a byte list, as the 32-byte digest, embedding hashlib.sha256
(FIPS 180-4). -/
def sha256 (msg : List Nat) : List Nat :=
  let padded := sha256pad msg
  let h := shaBlocks padded.length shaH0 padded
  h.foldr (fun w acc => natBytesBE 4 w ++ acc) []

/-- The base58 alphabet shared by nacl Base58Encoder (used for the public
key, line 31) and the b58encode codec (lines 59 and 63): the Bitcoin
alphabet, with 0, O, I and l omitted. -/
def base58Alphabet : List Char :=
  "123456789ABCDEFGHJKLMNPQRSTUVWXYZabcdefghijkmnopqrstuvwxyz".data

/-- Little-endian base-58 digits of n. -/
def b58digits (n : Nat) : List Nat :=
  if h : n = 0 then [] else (n % 58) :: b58digits (n / 58)
termination_by n
decreasing_by exact Nat.div_lt_self (Nat.pos_of_ne_zero h) (by norm_num)

/-- Number of leading zero bytes, each preserved as a leading 1 character. -/
def countLeadingZeroBytes : List Nat → Nat
  | 0 :: rest => countLeadingZeroBytes rest + 1
  | _ => 0

/-- A byte list read as a big-endian natural number. -/
def bytesBEToNat (bs : List Nat) : Nat := bs.foldl (fun a b => a * 256 + b) 0

/-- Base58 encoding of a byte list over base58Alphabet, embedding the
b58encode codec the source calls for the signature and the intent id. -/
def b58encode (bs : List Nat) : String :=
  let z := countLeadingZeroBytes bs
  let digits := (b58digits (bytesBEToNat bs)).reverse
  String.mk (List.replicate z '1' ++ digits.map (fun d => base58Alphabet.getD d '1'))

/-- UTF-8 bytes of a string, embedding str.encode(). -/
def strBytes (s : String) : List Nat := s.toUTF8.toList.map (fun b => b.toNat)

/-- The value of datetime.datetime.utcnow() at the moment it is called. -/
structure PyDatetime where
  year : Nat
  month : Nat
  day : Nat
  hour : Nat
  minute : Nat
  second : Nat
  microsecond : Nat
deriving DecidableEq, Repr

/-- A number printed in decimal, left-padded with zeros to width w. -/
def padNum (w n : Nat) : String :=
  let s := Nat.repr n
  String.mk (List.replicate (w - s.length) '0' ++ s.data)

/-- Embeds datetime.isoformat(): YYYY-MM-DDTHH:MM:SS, and the fraction
.ffffff appended exactly when the microsecond component is nonzero. -/
def pyIsoformat (d : PyDatetime) : String :=
  padNum 4 d.year ++ "-" ++ padNum 2 d.month ++ "-" ++ padNum 2 d.day ++ "T" ++
  padNum 2 d.hour ++ ":" ++ padNum 2 d.minute ++ ":" ++ padNum 2 d.second ++
  (if d.microsecond = 0 then "" else "." ++ padNum 6 d.microsecond)

/-- The second-precision ISO-8601 form, with no sub-second digits: the shape
the specification ascribes to the timestamp. -/
def isoSeconds (d : PyDatetime) : String :=
  padNum 4 d.year ++ "-" ++ padNum 2 d.month ++ "-" ++ padNum 2 d.day ++ "T" ++
  padNum 2 d.hour ++ ":" ++ padNum 2 d.minute ++ ":" ++ padNum 2 d.second

/-- The Python exceptions the client raises, by exception kind and message. -/
inductive PyExn where
  | signingError (msg : String)
  | attributeError (msg : String)
  | submissionError (msg : String)
  | jsonDecodeError (msg : String)
deriving DecidableEq, Repr

/-- The dict returned by create_payment_intent, in source field order. -/
structure PaymentIntent where
  id : String
  payer : String
  amount : Int
  jobId : String
  timestamp : String
  expiresIn : Int
  signature : String
deriving DecidableEq, Repr

/-- Attribute lookup of b58encode on the Python standard-library base64
module, which the source imports on line 10 and dereferences on lines 59
and 63.  That module defines base64, base32, base16, ascii85 and base85
codecs and no b58encode, so the lookup yields nothing and the dereference
raises AttributeError at run time (the intended codec is the b58encode of
the separate base58 package). -/
def base64_b58encode : Option (List Nat → String) := none

/-- Embeds X402Client.create_payment_intent (lines 33-73) as executed, as a
function of the captured clock value and the signing operation.  sign
stands for self.signing_key.sign(message.encode()).signature: it returns
the raw signature bytes, or the message of the exception the signing
raised, which the method propagates (the SigningError of the
specification).  After a successful signing the method performs the
base64.b58encode attribute dereference of line 59, which raises
AttributeError, so lines 61-73 never run; they are kept under the some
branch exactly as written, guarded by the empty lookup above.  The
expires_in parameter carries the Python default 300: callers that omit it
pass 300 explicitly here. -/
def create_payment_intent (public_key : String) (now : PyDatetime)
    (sign : String → Except String (List Nat))
    (amount : Int) (job_id : String) (expires_in : Int) :
    Except PyExn PaymentIntent :=
  let timestamp := pyIsoformat now ++ "Z"
  let message := "x402-payment:" ++ public_key ++ ":" ++ toString amount ++ ":" ++
    job_id ++ ":" ++ timestamp ++ ":" ++ toString expires_in
  match sign message with
  | .error e => .error (.signingError e)
  | .ok sigBytes =>
      match base64_b58encode with
      | none => .error (.attributeError "module base64 has no attribute b58encode")
      | some enc =>
          let signature_base58 := enc sigBytes
          let intent_id_hash := (sha256 (strBytes message)).take 16
          let intent_id := enc intent_id_hash
          .ok { id := intent_id, payer := public_key, amount := amount,
                jobId := job_id, timestamp := timestamp, expiresIn := expires_in,
                signature := signature_base58 }

/-- The method as its docstring (Returns: Signed payment intent) and
specification section 4.2 describe it: create_payment_intent with the
failing line 59/63 dereference replaced by the base58 codec the author
intended (the b58encode of the base58 package, the same alphabet as the
public key).  This is not the executed code - create_payment_intent above
is - and serves only to evidence what the intended computation would
return where a claim is about that intent. -/
def create_payment_intent_intended (public_key : String) (now : PyDatetime)
    (sign : String → Except String (List Nat))
    (amount : Int) (job_id : String) (expires_in : Int) :
    Except PyExn PaymentIntent :=
  let timestamp := pyIsoformat now ++ "Z"
  let message := "x402-payment:" ++ public_key ++ ":" ++ toString amount ++ ":" ++
    job_id ++ ":" ++ timestamp ++ ":" ++ toString expires_in
  match sign message with
  | .error e => .error (.signingError e)
  | .ok sigBytes =>
      let signature_base58 := b58encode sigBytes
      let intent_id_hash := (sha256 (strBytes message)).take 16
      let intent_id := b58encode intent_id_hash
      .ok { id := intent_id, payer := public_key, amount := amount,
            jobId := job_id, timestamp := timestamp, expiresIn := expires_in,
            signature := signature_base58 }

/-- JSON values, for response bodies the client treats as opaque data. -/
inductive Json where
  | null
  | bool (b : Bool)
  | num (n : Int)
  | str (s : String)
  | arr (elems : List Json)
  | obj (fields : List (String × Json))

/-- Python str() of the value interpolated into the submission-error
f-string.  Faithful for strings and scalars, which is what the endpoint
sends as the message field of an error body; container values print as an
abbreviated form. -/
def pyStr : Json → String
  | .str s => s
  | .num n => toString n
  | .bool true => "True"
  | .bool false => "False"
  | .null => "None"
  | .arr _ => "[...]"
  | .obj _ => "\x7b...\x7d"

/-- An HTTP response as the client reads it: the success flag response.ok,
the raw body response.text, and response.json() modelled by jsonBody - the
body parsed as a top-level JSON object, or the message of the
JSONDecodeError that response.json() raises when the body does not parse. -/
structure HttpResponse where
  ok : Bool
  text : String
  jsonBody : Except String (List (String × Json))

/-- The value of time.time() at the moment it is called, split into whole
seconds and the sub-second remainder; int(time.time()) is the sec field. -/
structure PyTime where
  sec : Nat
  micro : Nat
deriving DecidableEq, Repr

/-- The body of the submission request: the dict of lines 100-104. -/
structure JobSubmission (Cfg : Type) where
  payment : PaymentIntent
  jobType : String
  config : Cfg

/-- The POST request submit_job sends: url, headers and JSON body. -/
structure HttpRequest (Cfg : Type) where
  url : String
  headers : List (String × String)
  body : JobSubmission Cfg

/-- Embeds lines 90-124 of X402Client.submit_job as executed: the job id of
line 96 is built from the time.time() reading, create_payment_intent is
called with amount and job id only (expiry left to its default 300), and on
its success the request of lines 100-124 is assembled.  The pricing lookup
result enters as the minimumPayment field of the get_pricing response; the
job configuration is an opaque value of an arbitrary type Cfg.  Because
create_payment_intent raises on every call, the .ok branch is unreachable
in execution and the exception propagates out of submit_job. -/
def submit_job_request {Cfg : Type} (api_url public_key : String)
    (now : PyDatetime) (t : PyTime) (sign : String → Except String (List Nat))
    (minimumPayment : Int) (job_type : String) (config : Cfg) :
    Except PyExn (HttpRequest Cfg) :=
  match create_payment_intent public_key now sign minimumPayment
      ("job_" ++ toString t.sec) 300 with
  | .error e => .error e
  | .ok intent =>
      .ok { url := api_url ++ "/x402",
            headers := [("Content-Type", "application/json"),
                        ("X-Payment-Intent-ID", intent.id),
                        ("X-Payer", intent.payer),
                        ("X-Payment-Signature", intent.signature),
                        ("X-Payment-Amount", toString intent.amount),
                        ("X-Job-ID", intent.jobId),
                        ("X-Timestamp", intent.timestamp),
                        ("X-Expires-In", toString intent.expiresIn)],
            body := { payment := intent, jobType := job_type, config := config } }

/-- Lines 90-124 over create_payment_intent_intended: the request
submit_job is written to build.  Not the executed code - submit_job_request
above is - and serves only to evidence the intended body and headers. -/
def submit_job_request_intended {Cfg : Type} (api_url public_key : String)
    (now : PyDatetime) (t : PyTime) (sign : String → Except String (List Nat))
    (minimumPayment : Int) (job_type : String) (config : Cfg) :
    Except PyExn (HttpRequest Cfg) :=
  match create_payment_intent_intended public_key now sign minimumPayment
      ("job_" ++ toString t.sec) 300 with
  | .error e => .error e
  | .ok intent =>
      .ok { url := api_url ++ "/x402",
            headers := [("Content-Type", "application/json"),
                        ("X-Payment-Intent-ID", intent.id),
                        ("X-Payer", intent.payer),
                        ("X-Payment-Signature", intent.signature),
                        ("X-Payment-Amount", toString intent.amount),
                        ("X-Job-ID", intent.jobId),
                        ("X-Timestamp", intent.timestamp),
                        ("X-Expires-In", toString intent.expiresIn)],
            body := { payment := intent, jobType := job_type, config := config } }

/-- Embeds lines 126-130 of X402Client.submit_job, the response handling:
on a non-success response, response.json() is evaluated first - raising its
decode error when the body does not parse - and its message field, or
response.text when that field is absent, is interpolated into the
submission-error message; on a success response the parsed body is
returned, with the same decode behaviour. -/
def handle_submit_response (r : HttpResponse) : Except PyExn (List (String × Json)) :=
  if r.ok then
    match r.jsonBody with
    | .error e => .error (.jsonDecodeError e)
    | .ok fields => .ok fields
  else
    match r.jsonBody with
    | .error e => .error (.jsonDecodeError e)
    | .ok fields =>
        .error (.submissionError ("Job submission failed: " ++
          (match fields.lookup "message" with
           | some v => pyStr v
           | none => r.text)))

/-- Embeds X402Client.submit_job end to end: build the request, send it
through the network function post, handle the response. -/
def submit_job {Cfg : Type} (api_url public_key : String)
    (now : PyDatetime) (t : PyTime) (sign : String → Except String (List Nat))
    (minimumPayment : Int) (job_type : String) (config : Cfg)
    (post : HttpRequest Cfg → HttpResponse) : Except PyExn (List (String × Json)) :=
  match submit_job_request api_url public_key now t sign minimumPayment job_type config with
  | .error e => .error e
  | .ok req => handle_submit_response (post req)

/-- Embeds X402Client.get_job_status (lines 132-150): the parsed body on a
success response, or the exception message raised on a non-success one. -/
def get_job_status (r : HttpResponse) : Except String (List (String × Json)) :=
  if r.ok then
    match r.jsonBody with
    | .error e => .error e
    | .ok fields => .ok fields
  else .error ("Failed to get job status: " ++ r.text)

/-- The two fields of a status dict that wait_for_completion reads: the
status value and the optional error value. -/
structure JobStatus where
  status : String
  error : Option String
deriving DecidableEq, Repr

/-- How one round of wait_for_completion ends, paired below with the number
of status fetches performed. -/
inductive WaitOutcome where
  | done (s : JobStatus)
  | jobTerminated (status errMsg : String)
  | statusFetchFailed (text : String)
  | timedOut
deriving DecidableEq, Repr

/-- Embeds the loop of X402Client.wait_for_completion (lines 169-182), with
time in whole seconds: fetches are instantaneous and each
time.sleep(poll_interval) advances the clock by poll_interval, so at the
k-th top-of-loop check the elapsed time is k * poll_interval.  fetch k
models the k-th self.get_job_status call: .ok is the status dict projected
to JobStatus, .error t the exception get_job_status raises on a non-success
response.  The result pairs the outcome with the number of fetches
performed; none means the fuel bound was reached before an outcome. -/
def wait_loop (fetch : Nat → Except String JobStatus)
    (poll_interval max_wait : Nat) : Nat → Nat → Option (WaitOutcome × Nat)
  | 0, _ => none
  | fuel + 1, k =>
      if k * poll_interval < max_wait then
        match fetch k with
        | .error t => some (.statusFetchFailed t, k + 1)
        | .ok s =>
            if s.status = "completed" then some (.done s, k + 1)
            else if s.status = "failed" ∨ s.status = "cancelled" then
              some (.jobTerminated s.status (s.error.getD "Unknown"), k + 1)
            else wait_loop fetch poll_interval max_wait fuel (k + 1)
      else some (.timedOut, k)

/-- X402Client.wait_for_completion: run the loop from the recorded start. -/
def wait_for_completion (fetch : Nat → Except String JobStatus)
    (poll_interval max_wait fuel : Nat) : Option (WaitOutcome × Nat) :=
  wait_loop fetch poll_interval max_wait fuel 0

/-- Modelled from the spec: the polling loop in the order section 4.4
states it - fetch first, then the terminal-status checks, and only then the
elapsed-time check before sleeping.  Defined solely to compare the
specified operation order with the implemented one. -/
def wait_loop_specOrder (fetch : Nat → Except String JobStatus)
    (poll_interval max_wait : Nat) : Nat → Nat → Option (WaitOutcome × Nat)
  | 0, _ => none
  | fuel + 1, k =>
      match fetch k with
      | .error t => some (.statusFetchFailed t, k + 1)
      | .ok s =>
          if s.status = "completed" then some (.done s, k + 1)
          else if s.status = "failed" ∨ s.status = "cancelled" then
            some (.jobTerminated s.status (s.error.getD "Unknown"), k + 1)
          else if max_wait ≤ k * poll_interval then some (.timedOut, k + 1)
          else wait_loop_specOrder fetch poll_interval max_wait fuel (k + 1)

/-- Modelled from the spec: wait_for_completion with the loop order of
section 4.4. -/
def wait_for_completion_specOrder (fetch : Nat → Except String JobStatus)
    (poll_interval max_wait fuel : Nat) : Option (WaitOutcome × Nat) :=
  wait_loop_specOrder fetch poll_interval max_wait fuel 0

/-- A fetch result that is a successfully parsed, non-terminal status. -/
def isNonTerminalOk : Except String JobStatus → Bool
  | .ok s => !(s.status == "completed") && !(s.status == "failed") && !(s.status == "cancelled")
  | .error _ => false

/-- A server that never leaves the pending state. -/
def alwaysPending : Nat → Except String JobStatus := fun _ => .ok ⟨"pending", none⟩

/-- A server whose first poll is pending and whose second reports failure. -/
def pendingThenFailed : Nat → Except String JobStatus :=
  fun j => if j = 0 then .ok ⟨"pending", none⟩ else .ok ⟨"failed", some "boom"⟩

/-- A non-success response whose body does not parse as JSON. -/
def cexResponse : HttpResponse :=
  { ok := false, text := "oops",
    jsonBody := .error "Expecting value: line 1 column 1 (char 0)" }

/-- A non-success response whose JSON body carries a message field. -/
def msgResponse : HttpResponse :=
  { ok := false, text := "raw body",
    jsonBody := .ok [("message", Json.str "Payment required")] }

/-- C1: as executed, create_payment_intent applies the signing operation to
exactly the colon-joined sequence of the x402-payment tag, payer, amount,
jobId, timestamp and expiresIn - its whole behaviour factors through the
signing of that one string, ending in the propagated signing exception or
in the AttributeError of line 59, so the hash of line 62 is never taken;
the intended computation signs and hashes that same string, as the claim
describes. -/
theorem C1_canonical_message :
    (∀ (public_key : String) (now : PyDatetime) (sign : String → Except String (List Nat))
       (amount : Int) (job_id : String) (expires_in : Int),
       create_payment_intent public_key now sign amount job_id expires_in =
         match sign (String.intercalate ":"
             ["x402-payment", public_key, toString amount, job_id,
              pyIsoformat now ++ "Z", toString expires_in]) with
         | .error e => .error (.signingError e)
         | .ok _ => .error (.attributeError "module base64 has no attribute b58encode")) ∧
    (∀ (public_key : String) (now : PyDatetime) (sigf : String → List Nat)
       (amount : Int) (job_id : String) (expires_in : Int),
       ∃ i, create_payment_intent_intended public_key now (fun m => .ok (sigf m))
           amount job_id expires_in = .ok i ∧
         i.signature = b58encode (sigf (String.intercalate ":"
           ["x402-payment", public_key, toString amount, job_id,
            pyIsoformat now ++ "Z", toString expires_in])) ∧
         i.id = b58encode ((sha256 (strBytes (String.intercalate ":"
           ["x402-payment", public_key, toString amount, job_id,
            pyIsoformat now ++ "Z", toString expires_in]))).take 16)) :=
  ⟨fun _ _ _ _ _ _ => rfl, fun _ _ _ _ _ _ => ⟨_, rfl, rfl, rfl⟩⟩

/-- C2: executed as written the source raises AttributeError on every
create_payment_intent call, even when the signing operation succeeds,
because the base64 module it dereferences has no b58encode attribute; the
same inputs succeed under the intended base58 codec, which is what the
claim describes. -/
theorem C2_attribute_error_on_every_call :
    create_payment_intent "DemoPayerPublicKey" ⟨2025, 1, 2, 3, 4, 5, 0⟩
        (fun _ => .ok [1, 2, 3, 4]) 1000 "job_1737000000" 300 =
      .error (.attributeError "module base64 has no attribute b58encode") ∧
    (∃ i, create_payment_intent_intended "DemoPayerPublicKey" ⟨2025, 1, 2, 3, 4, 5, 0⟩
        (fun _ => .ok [1, 2, 3, 4]) 1000 "job_1737000000" 300 = .ok i) :=
  ⟨rfl, ⟨_, rfl⟩⟩

/-- C3: as executed no intent id exists to compare - every call with a
successful signing ends in the AttributeError of line 59, before the id
computation of lines 61-63; under the intended base58 codec the id is the
encoding of the first 16 bytes of the SHA-256 digest of the canonical
message, identical across constructions over the same fields whatever the
two signing operations return, as the claim describes. -/
theorem C3_intent_id_deterministic :
    (∀ (public_key : String) (now : PyDatetime) (sigf : String → List Nat)
       (amount : Int) (job_id : String) (expires_in : Int),
       create_payment_intent public_key now (fun m => .ok (sigf m))
           amount job_id expires_in =
         .error (.attributeError "module base64 has no attribute b58encode")) ∧
    (∀ (public_key : String) (now : PyDatetime) (sigf1 sigf2 : String → List Nat)
       (amount : Int) (job_id : String) (expires_in : Int),
       ∃ i1 i2,
         create_payment_intent_intended public_key now (fun m => .ok (sigf1 m))
             amount job_id expires_in = .ok i1 ∧
         create_payment_intent_intended public_key now (fun m => .ok (sigf2 m))
             amount job_id expires_in = .ok i2 ∧
         i1.id = b58encode ((sha256 (strBytes (String.intercalate ":"
           ["x402-payment", public_key, toString amount, job_id,
            pyIsoformat now ++ "Z", toString expires_in]))).take 16) ∧
         i1.id = i2.id) :=
  ⟨fun _ _ _ _ _ _ => rfl, fun _ _ _ _ _ _ _ => ⟨_, _, rfl, rfl, rfl, rfl⟩⟩

/-- C4 counterexample: with a signing operation that fails echoing its
input - an executed path, since the message is built and signed before the
line 59 crash - the propagated SigningError carries the canonical message
whose timestamp keeps the six sub-second digits .123456, not the
second-precision form the claim states. -/
theorem C4_counterexample :
    create_payment_intent "PK" ⟨2025, 1, 2, 3, 4, 5, 123456⟩
        (fun m => .error m) 5 "j" 300 =
      .error (.signingError "x402-payment:PK:5:j:2025-01-02T03:04:05.123456Z:300") ∧
    '.' ∈ "2025-01-02T03:04:05.123456Z".data ∧
    create_payment_intent "PK" ⟨2025, 1, 2, 3, 4, 5, 123456⟩
        (fun m => .error m) 5 "j" 300 ≠
      .error (.signingError ("x402-payment:PK:5:j:" ++
        (isoSeconds ⟨2025, 1, 2, 3, 4, 5, 123456⟩ ++ "Z") ++ ":300")) := by
  refine ⟨rfl, by decide, fun h => ?_⟩
  have h2 := PyExn.signingError.inj (Except.error.inj h)
  exact absurd h2 (by decide)

/-- C4 amended: the timestamp createIntent computes and embeds in the
signed canonical message - the executed observable, since no PaymentIntent
is ever returned (the AttributeError of C2) - is the captured UTC clock
value in ISO-8601 form with a trailing Z at microsecond precision: the
second-precision form exactly when the microsecond component is zero, and
with the six-digit fraction appended otherwise. -/
theorem C4_timestamp_microseconds :
    ∀ (public_key : String) (now : PyDatetime)
      (amount : Int) (job_id : String) (expires_in : Int),
      create_payment_intent public_key now (fun m => .error m)
          amount job_id expires_in =
        .error (.signingError (String.intercalate ":"
          ["x402-payment", public_key, toString amount, job_id,
           pyIsoformat now ++ "Z", toString expires_in])) ∧
      pyIsoformat now = (if now.microsecond = 0 then isoSeconds now
                         else isoSeconds now ++ "." ++ padNum 6 now.microsecond) := by
  intro public_key now amount job_id expires_in
  refine ⟨rfl, ?_⟩
  by_cases h : now.microsecond = 0 <;>
    simp [pyIsoformat, isoSeconds, h, String.append_assoc]

/-- C6: as executed submit_job builds no request at all - with any
succeeding signer the AttributeError from create_payment_intent propagates
before lines 100-124 run; in the request submit_job is written to build,
the body is the full JobSubmission and each of the seven payment headers
equals the corresponding field of the payment in the body (amount and
expiresIn decimal-printed), as the claim describes. -/
theorem C6_submission_headers :
    (∀ {Cfg : Type} (api_url public_key : String) (now : PyDatetime) (t : PyTime)
       (sigf : String → List Nat) (minimumPayment : Int) (job_type : String) (config : Cfg),
       submit_job_request api_url public_key now t (fun m => .ok (sigf m))
           minimumPayment job_type config =
         .error (.attributeError "module base64 has no attribute b58encode")) ∧
    (∀ {Cfg : Type} (api_url public_key : String) (now : PyDatetime) (t : PyTime)
       (sigf : String → List Nat) (minimumPayment : Int) (job_type : String) (config : Cfg),
       ∃ req, submit_job_request_intended api_url public_key now t (fun m => .ok (sigf m))
           minimumPayment job_type config = .ok req ∧
         (∃ i, create_payment_intent_intended public_key now (fun m => .ok (sigf m))
             minimumPayment ("job_" ++ toString t.sec) 300 = .ok i ∧
           req.body = { payment := i, jobType := job_type, config := config }) ∧
         req.headers.lookup "X-Payment-Intent-ID" = some req.body.payment.id ∧
         req.headers.lookup "X-Payer" = some req.body.payment.payer ∧
         req.headers.lookup "X-Payment-Signature" = some req.body.payment.signature ∧
         req.headers.lookup "X-Payment-Amount" = some (toString req.body.payment.amount) ∧
         req.headers.lookup "X-Job-ID" = some req.body.payment.jobId ∧
         req.headers.lookup "X-Timestamp" = some req.body.payment.timestamp ∧
         req.headers.lookup "X-Expires-In" = some (toString req.body.payment.expiresIn)) :=
  ⟨fun _ _ _ _ _ _ _ _ => rfl,
   fun _ _ _ _ _ _ _ _ =>
    ⟨_, rfl, ⟨_, rfl, rfl⟩, rfl, rfl, rfl, rfl, rfl, rfl, rfl⟩⟩

/-- C9: the job id submit_job generates at line 96 - an expression the
executed code evaluates before any crash - is job_ followed by the
whole-second part of the clock.  First: the whole behaviour of the
submission is invariant under changing the sub-second part of the clock
reading, for every signer and all other inputs, so two submissions within
the same second collide.  Second: with a signing operation that fails
echoing its input, the propagated SigningError exposes the canonical
message, whose jobId field is exactly job_ followed by the second. -/
theorem C9_jobid_second_granularity :
    (∀ {Cfg : Type} (api_url public_key : String) (now : PyDatetime)
       (sec micro1 micro2 : Nat) (sign : String → Except String (List Nat))
       (minimumPayment : Int) (job_type : String) (config : Cfg),
       submit_job_request api_url public_key now ⟨sec, micro1⟩ sign
           minimumPayment job_type config =
       submit_job_request api_url public_key now ⟨sec, micro2⟩ sign
           minimumPayment job_type config) ∧
    (∀ {Cfg : Type} (api_url public_key : String) (now : PyDatetime) (sec micro : Nat)
       (minimumPayment : Int) (job_type : String) (config : Cfg),
       submit_job_request api_url public_key now ⟨sec, micro⟩ (fun m => .error m)
           minimumPayment job_type config =
         .error (.signingError (String.intercalate ":"
           ["x402-payment", public_key, toString minimumPayment,
            "job_" ++ toString sec, pyIsoformat now ++ "Z", "300"]))) :=
  ⟨fun _ _ _ _ _ _ _ _ _ _ => rfl, fun _ _ _ _ _ _ _ _ => rfl⟩

/-- C10: as executed submit_job creates no intent - the AttributeError of
C2 fires inside every create_payment_intent call - but the expiry wired
into the one intent construction it attempts is the default 300: submit
passes only amount and job id, the canonical message the code builds and
signs ends in the field 300 (exposed through a signing operation that fails
echoing its input), and in the intended request the payment carries
expiresIn 300 in the body and the X-Expires-In header alike. -/
theorem C10_submit_expiry_300 :
    (∀ {Cfg : Type} (api_url public_key : String) (now : PyDatetime) (t : PyTime)
       (minimumPayment : Int) (job_type : String) (config : Cfg),
       submit_job_request api_url public_key now t (fun m => .error m)
           minimumPayment job_type config =
         .error (.signingError (String.intercalate ":"
           ["x402-payment", public_key, toString minimumPayment,
            "job_" ++ toString t.sec, pyIsoformat now ++ "Z", "300"]))) ∧
    (∀ {Cfg : Type} (api_url public_key : String) (now : PyDatetime) (t : PyTime)
       (sigf : String → List Nat) (minimumPayment : Int) (job_type : String) (config : Cfg),
       ∃ req, submit_job_request_intended api_url public_key now t (fun m => .ok (sigf m))
           minimumPayment job_type config = .ok req ∧
         req.body.payment.expiresIn = 300 ∧
         req.headers.lookup "X-Expires-In" = some "300") :=
  ⟨fun _ _ _ _ _ _ _ => rfl, fun _ _ _ _ _ _ _ _ => ⟨_, rfl, rfl, rfl⟩⟩

/-- A timeout outcome of the loop reports at least as many fetches as the
index the loop was entered at. -/
theorem wait_loop_timedOut_le (fetch : Nat → Except String JobStatus)
    (p w : Nat) : ∀ (fuel k c : Nat),
    wait_loop fetch p w fuel k = some (.timedOut, c) → k ≤ c := by
  intro fuel
  induction fuel with
  | zero => intro k c h; simp [wait_loop] at h
  | succ n ih =>
      intro k c h
      rw [wait_loop] at h
      by_cases hc : k * p < w
      · rw [if_pos hc] at h
        cases hf : fetch k with
        | error t => rw [hf] at h; dsimp only at h; simp at h
        | ok s =>
            rw [hf] at h
            dsimp only at h
            by_cases h1 : s.status = "completed"
            · simp [h1] at h
            · by_cases h2 : s.status = "failed" ∨ s.status = "cancelled"
              · simp [h1, h2] at h
              · rw [if_neg h1, if_neg h2] at h
                exact Nat.le_of_succ_le (ih (k + 1) c h)
      · rw [if_neg hc] at h
        simp at h
        omega

/-- C5 counterexample: the implemented loop checks the deadline at the top
of each iteration, before fetching, so with maxWait 0 it raises the timeout
with no poll at all; with pollInterval 1 and maxWait 1 it polls exactly
once, while a loop in the order the claim states - fetch first, deadline
check only after the terminal checks - polls twice on the same inputs. -/
theorem C5_counterexample :
    wait_for_completion alwaysPending 1 0 5 = some (.timedOut, 0) ∧
    wait_for_completion alwaysPending 1 1 5 = some (.timedOut, 1) ∧
    wait_for_completion_specOrder alwaysPending 1 1 5 = some (.timedOut, 2) :=
  ⟨by decide, by decide, by decide⟩

/-- C5 amended: each iteration first checks elapsed time against maxWait,
raising the timeout when it is not below maxWait, then fetches the status,
returns it if completed, raises if failed or cancelled, and otherwise
sleeps pollInterval and repeats.  Hence whenever maxWait is positive, a
timeout is only reached after the first fetch observed a non-terminal
status, and with pollInterval and maxWait both one second against an
always-pending server exactly one poll happens before the timeout; with
maxWait zero the timeout precedes any poll. -/
theorem C5_poll_order :
    (∀ (fetch : Nat → Except String JobStatus) (p w fuel c : Nat),
        wait_for_completion fetch p w fuel = some (.timedOut, c) → 0 < w →
        1 ≤ c ∧ isNonTerminalOk (fetch 0) = true) ∧
    wait_for_completion alwaysPending 1 1 10 = some (.timedOut, 1) ∧
    wait_for_completion alwaysPending 1 0 10 = some (.timedOut, 0) := by
  refine ⟨?_, by decide, by decide⟩
  intro fetch p w fuel c h hw
  cases fuel with
  | zero => simp [wait_for_completion, wait_loop] at h
  | succ n =>
      unfold wait_for_completion at h
      rw [wait_loop] at h
      rw [if_pos (by simpa using hw)] at h
      cases hf : fetch 0 with
      | error t => rw [hf] at h; dsimp only at h; simp at h
      | ok s =>
          rw [hf] at h
          dsimp only at h
          by_cases h1 : s.status = "completed"
          · simp [h1] at h
          · by_cases h2 : s.status = "failed" ∨ s.status = "cancelled"
            · simp [h1, h2] at h
            · rw [if_neg h1, if_neg h2] at h
              refine ⟨wait_loop_timedOut_le fetch p w n 1 c h, ?_⟩
              push_neg at h2
              simp [isNonTerminalOk, hf, h1, h2.1, h2.2]

/-- C5 witness: the general half of the amended statement applied to the
one-second, one-second, always-pending instance. -/
theorem C5_poll_order_witness :
    1 ≤ 1 ∧ isNonTerminalOk (alwaysPending 0) = true :=
  C5_poll_order.1 alwaysPending 1 1 10 1 (by decide) (by decide)

/-- When every fetch from index j up to k is non-terminal, every index up
to k is within the deadline, and the fuel covers the remaining distance,
the loop entered at j ends at the terminal fetch k. -/
theorem wait_loop_reach (fetch : Nat → Except String JobStatus) (p w k : Nat)
    (s : JobStatus) (hk : fetch k = .ok s)
    (hst : s.status = "failed" ∨ s.status = "cancelled")
    (hw : ∀ j, j ≤ k → j * p < w)
    (hpre : ∀ j, j < k → isNonTerminalOk (fetch j) = true) :
    ∀ (fuel j : Nat), j ≤ k → k - j < fuel →
      wait_loop fetch p w fuel j =
        some (.jobTerminated s.status (s.error.getD "Unknown"), k + 1) := by
  intro fuel
  induction fuel with
  | zero => intro j hj hlt; omega
  | succ n ih =>
      intro j hj hlt
      rw [wait_loop]
      rw [if_pos (hw j hj)]
      by_cases hjk : j = k
      · subst hjk
        rw [hk]
        have hnc : ¬ s.status = "completed" := by
          rcases hst with h | h <;> simp [h]
        dsimp only
        rw [if_neg hnc, if_pos hst]
      · have hjk' : j < k := Nat.lt_of_le_of_ne hj hjk
        have hnt := hpre j hjk'
        cases hf : fetch j with
        | error t => rw [hf] at hnt; simp [isNonTerminalOk] at hnt
        | ok s' =>
            rw [hf] at hnt
            simp [isNonTerminalOk] at hnt
            obtain ⟨⟨hc, hfd⟩, hcd⟩ := hnt
            dsimp only
            rw [if_neg hc, if_neg (by tauto)]
            exact ih (j + 1) (by omega) (by omega)

/-- C8: whenever a poll observes a failed or cancelled status after
non-terminal ones, wait_for_completion raises the job-terminated error
carrying that status and the server error string (Unknown when absent),
with exactly that many fetches performed: it neither polls again nor
returns normally. -/
theorem C8_terminal_status_raises :
    ∀ (fetch : Nat → Except String JobStatus) (p w fuel k : Nat) (s : JobStatus),
      (∀ j, j < k → isNonTerminalOk (fetch j) = true) →
      fetch k = .ok s →
      (s.status = "failed" ∨ s.status = "cancelled") →
      (∀ j, j ≤ k → j * p < w) →
      k < fuel →
      wait_for_completion fetch p w fuel =
        some (.jobTerminated s.status (s.error.getD "Unknown"), k + 1) :=
  fun fetch p w fuel k s hpre hk hst hw hf =>
    wait_loop_reach fetch p w k s hk hst hw hpre fuel 0 (Nat.zero_le k) (by omega)

/-- C8 witness: a pending poll followed by a failed one ends in the
job-terminated outcome carrying the server error after two fetches. -/
theorem C8_terminal_status_raises_witness :
    wait_for_completion pendingThenFailed 1 5 10 =
      some (.jobTerminated "failed" "boom", 2) :=
  C8_terminal_status_raises pendingThenFailed 1 5 10 1 ⟨"failed", some "boom"⟩
    (fun j hj => by
      have hj0 : j = 0 := by omega
      subst hj0
      decide)
    rfl (Or.inl rfl) (fun j hj => by omega) (by omega)

/-- C7 counterexample: on a non-success response whose body does not parse,
the submission handling surfaces the JSON decode error, not a
SubmissionError carrying the raw body. -/
theorem C7_counterexample :
    handle_submit_response cexResponse =
      .error (.jsonDecodeError "Expecting value: line 1 column 1 (char 0)") ∧
    handle_submit_response cexResponse ≠
      .error (.submissionError "Job submission failed: oops") := by
  refine ⟨rfl, fun h => ?_⟩
  have h2 : PyExn.jsonDecodeError "Expecting value: line 1 column 1 (char 0)" =
      PyExn.submissionError "Job submission failed: oops" := Except.error.inj h
  exact PyExn.noConfusion h2

/-- C7 amended: on a non-success response submit_job never succeeds; it
fails with a SubmissionError carrying the server message field when the
body parses as JSON containing one, with a SubmissionError carrying the
raw body when the parsed JSON lacks a message field, and with the
propagated JSON decode error - not a SubmissionError - when the body is
unparseable. -/
theorem C7_submission_error_message :
    ∀ (r : HttpResponse), r.ok = false →
      (∀ e, r.jsonBody = .error e →
        handle_submit_response r = .error (.jsonDecodeError e)) ∧
      (∀ fields m, r.jsonBody = .ok fields → fields.lookup "message" = some m →
        handle_submit_response r =
          .error (.submissionError ("Job submission failed: " ++ pyStr m))) ∧
      (∀ fields, r.jsonBody = .ok fields → fields.lookup "message" = none →
        handle_submit_response r =
          .error (.submissionError ("Job submission failed: " ++ r.text))) ∧
      (∀ v, handle_submit_response r ≠ .ok v) := by
  intro r hok
  refine ⟨?_, ?_, ?_, ?_⟩
  · intro e he
    simp [handle_submit_response, hok, he]
  · intro fields m hf hm
    simp [handle_submit_response, hok, hf, hm]
  · intro fields hf hm
    simp [handle_submit_response, hok, hf, hm]
  · intro v h
    cases hjb : r.jsonBody with
    | error e => simp [handle_submit_response, hok, hjb] at h
    | ok fields => simp [handle_submit_response, hok, hjb] at h

/-- C7 witness: the message-field branch of the amended statement at a
concrete non-success response carrying one. -/
theorem C7_submission_error_message_witness :
    handle_submit_response msgResponse =
      .error (.submissionError "Job submission failed: Payment required") :=
  (C7_submission_error_message msgResponse rfl).2.1
    [("message", Json.str "Payment required")] (Json.str "Payment required") rfl rfl

end X402
